import Mathlib

/-!
Formal model of the exec data source `check-permission.py`
(src/docs/research/examples/custom-sources/python/check-permission.py).

The script reads one JSON document from standard input, resolves an operator
identity from the request (falling back to the USER environment variable and
then to the literal "unknown"), looks the operator up in a fixed in-memory
permission table, and prints one JSON response document on standard output,
exiting 0; any parse failure, validation failure or other exception is
reported on the error stream with exit code 1.

Modelling choices, each mirroring the Python source:
* `Json` is the shape of values produced by `json.load`.  Numbers are
  modelled as integers (the script and spec only ever handle strings and
  booleans; float-typed payloads are outside the model).  Objects are
  ordered field lists, as parsed dicts are insertion-ordered; `json.load`
  never produces duplicate keys, so lookup takes the first match.
* `pyDictGet` models Python's `x.get(key, default)`: on a dict it returns
  the stored value (even a stored `null`) or the default, and on any
  non-dict value it raises `AttributeError` with CPython's message
  "TypeName object has no attribute", which `main`'s generic handler turns
  into an "Error: ..." diagnostic.
* `permsFor` models `PERMISSIONS.get(operator, [])`: string keys are looked
  up, other hashable JSON values (null, bool, int) match no string key and
  yield the default empty list, and unhashable values (list, dict) raise
  `TypeError` with CPython's message.
* `pyTruthy` models Python truthiness, used by line 39's `if not permission`.
* `dumps` models `json.dumps` with its default separators and
  `ensure_ascii=True` escaping, followed by `print`'s trailing newline.
* `run` models `main`: it consumes the result of `json.load sys.stdin`
  (an `Except`, since the JSON parser itself is Python's standard library,
  not code of this repository) and `os.environ.get "USER"`, and returns the
  observable outcome: at most one standard-output document, at most one
  error-stream line, and the exit code.  `sys.exit(1)` raises `SystemExit`,
  which `except Exception` does not catch, so the missing-permission branch
  terminates with exit code 1 as written.
-/

namespace CheckPermission

mutual

inductive Json where
  | null
  | bool (b : Bool)
  | num (n : Int)
  | str (s : String)
  | arr (elems : JsonList)
  | obj (fields : JsonFields)

inductive JsonList where
  | nil
  | cons (hd : Json) (tl : JsonList)

inductive JsonFields where
  | nil
  | cons (key : String) (val : Json) (tl : JsonFields)

end

/-- First-match association lookup on object fields (parsed dicts have
unique keys, so this is dict lookup). -/
def JsonFields.lookup : JsonFields → String → Option Json
  | .nil, _ => none
  | .cons k v tl, key => if k = key then some v else tl.lookup key

/-- CPython type name of a parsed JSON value, as it appears in
`AttributeError` and `TypeError` messages. -/
def pyTypeName : Json → String
  | .null => "NoneType"
  | .bool _ => "bool"
  | .num _ => "int"
  | .str _ => "str"
  | .arr _ => "list"
  | .obj _ => "dict"

/-- Python truthiness of a parsed JSON value (`if not permission`). -/
def pyTruthy : Json → Bool
  | .null => false
  | .bool b => b
  | .num n => n != 0
  | .str s => s != ""
  | .arr .nil => false
  | .arr _ => true
  | .obj .nil => false
  | .obj _ => true

/-- Lowercase hexadecimal digit, as produced by `json.dumps` escapes. -/
def hexDigit (n : Nat) : Char :=
  if n < 10 then Char.ofNat (48 + n) else Char.ofNat (87 + n)

/-- Four lowercase hex digits of a code unit below 0x10000. -/
def hex4 (n : Nat) : String :=
  String.mk [hexDigit (n / 4096 % 16), hexDigit (n / 256 % 16),
             hexDigit (n / 16 % 16), hexDigit (n % 16)]

/-- `json.dumps` escaping of one character with `ensure_ascii=True`:
quote, backslash and the short named escapes, `\u00xx` for other control
characters, `\uxxxx` (with surrogate pairs above 0xffff) for every
character outside the printable ASCII range 0x20..0x7e. -/
def escapeChar (c : Char) : String :=
  if c = '"' then "\\\""
  else if c = '\\' then "\\\\"
  else if c = '\x08' then "\\b"
  else if c = '\t' then "\\t"
  else if c = '\n' then "\\n"
  else if c = '\x0c' then "\\f"
  else if c = '\r' then "\\r"
  else if c.toNat < 32 || c.toNat > 126 then
    if c.toNat < 65536 then "\\u" ++ hex4 c.toNat
    else
      "\\u" ++ hex4 (55296 + (c.toNat - 65536) / 1024) ++
      "\\u" ++ hex4 (56320 + (c.toNat - 65536) % 1024)
  else String.mk [c]

/-- `json.dumps` serialization of a string. -/
def encodeString (s : String) : String :=
  "\"" ++ String.join (s.toList.map escapeChar) ++ "\""

mutual

/-- `json.dumps` with its defaults: item separator comma-space, key
separator colon-space, ASCII-escaped strings. -/
def dumps : Json → String
  | .null => "null"
  | .bool true => "true"
  | .bool false => "false"
  | .num n => toString n
  | .str s => encodeString s
  | .arr elems => "[" ++ dumpsList elems ++ "]"
  | .obj fields => "\x7b" ++ dumpsFields fields ++ "\x7d"

def dumpsList : JsonList → String
  | .nil => ""
  | .cons hd .nil => dumps hd
  | .cons hd tl => dumps hd ++ ", " ++ dumpsList tl

def dumpsFields : JsonFields → String
  | .nil => ""
  | .cons k v .nil => encodeString k ++ ": " ++ dumps v
  | .cons k v tl => encodeString k ++ ": " ++ dumps v ++ ", " ++ dumpsFields tl

end

/-- The simulated permission database `PERMISSIONS` (lines 24-28). -/
def PERMISSIONS : List (String × List String) :=
  [("alice", ["prod-db-read", "prod-db-write", "deploy-staging"]),
   ("bob", ["prod-db-read", "deploy-staging", "deploy-prod"]),
   ("charlie", ["prod-db-read"])]

/-- The permission resolver of lines 43-44 as a function of an explicit
store: `user_perms = store.get(operator, []); allowed = permission in
user_perms`. -/
def resolve (operator permission : String)
    (store : List (String × List String)) : Bool :=
  ((store.lookup operator).getD []).contains permission

/-- The CPython `AttributeError` message for `x.get` on a non-dict `x`. -/
def noGetMsg (j : Json) : String :=
  "'" ++ pyTypeName j ++ "' object has no attribute 'get'"

/-- Python `x.get(key, default)` on a parsed JSON value: dict lookup with
default, `AttributeError` on every non-dict value. -/
def pyDictGet (j : Json) (key : String) (dflt : Json) : Except String Json :=
  match j with
  | .obj fields => .ok ((fields.lookup key).getD dflt)
  | other => .error (noGetMsg other)

/-- Line 37 on a dict `env`:
`env.get("operator", os.environ.get("USER", "unknown"))`.  A present
`operator` entry is returned as stored; otherwise the `USER` variable;
otherwise the literal string "unknown". -/
def resolveOperator (ef : JsonFields) (userVar : Option String) : Json :=
  (ef.lookup "operator").getD (Json.str (userVar.getD "unknown"))

/-- Line 37 in full: the same `.get` call, raising `AttributeError` when
`env` is not a dict. -/
def pyGetOperator (env : Json) (userVar : Option String) : Except String Json :=
  match env with
  | .obj ef => .ok (resolveOperator ef userVar)
  | other => .error (noGetMsg other)

/-- A parsed JSON value is usable as a dict key iff it is hashable:
everything except lists and dicts. -/
def isHashable : Json → Bool
  | .arr _ => false
  | .obj _ => false
  | _ => true

/-- The permission list `PERMISSIONS.get(operator, [])` yields for a
hashable operator value: string keys are looked up, any other hashable
value equals no string key and falls to the default empty list. -/
def hashPerms : Json → List String
  | .str s => (PERMISSIONS.lookup s).getD []
  | _ => []

/-- Line 43, `PERMISSIONS.get(operator, [])`: `TypeError` on unhashable
operator values, otherwise `hashPerms`. -/
def permsFor : Json → Except String (List String)
  | .arr _ => .error "unhashable type: 'list'"
  | .obj _ => .error "unhashable type: 'dict'"
  | .str s => .ok ((PERMISSIONS.lookup s).getD [])
  | _ => .ok []

/-- Line 44, `permission in user_perms`: Python `in` over a list of
strings, using `==`; a non-string value equals no string. -/
def pyInStrList (perm : Json) (l : List String) : Bool :=
  match perm with
  | .str s => l.contains s
  | _ => false

/-- The response document of lines 46-53, with its exact field order:
columns operator, permission, allowed, and a single row in the same key
order. -/
def responseJson (operator permission : Json) (allowed : Bool) : Json :=
  Json.obj (.cons "columns"
      (Json.arr (.cons (Json.str "operator") (.cons (Json.str "permission")
        (.cons (Json.str "allowed") .nil))))
    (.cons "rows"
      (Json.arr (.cons (Json.obj (.cons "operator" operator
        (.cons "permission" permission
        (.cons "allowed" (Json.bool allowed) .nil)))) .nil))
    .nil))

/-- Observable outcome of one invocation: the standard-output document (if
any), the error-stream line (if any), and the exit code. -/
structure RunResult where
  stdout : Option String
  stderr : Option String
  exitCode : Nat

/-- The success outcome: the serialized response plus `print`'s newline on
standard output, nothing on the error stream, exit code 0. -/
def successResult (operator permission : Json) (allowed : Bool) : RunResult :=
  { stdout := some (dumps (responseJson operator permission allowed) ++ "\n"),
    stderr := none, exitCode := 0 }

/-- The validation-failure outcome of lines 39-41. -/
def missingPermResult : RunResult :=
  { stdout := none, stderr := some "Missing 'permission' in query\n",
    exitCode := 1 }

/-- The body of the `try` block after `json.load` (lines 33-53), in source
order; a thrown `Except.error` carries the exception's message. -/
def step (inputData : Json) (userVar : Option String) :
    Except String RunResult :=
  (pyDictGet inputData "query" (Json.obj .nil)).bind fun query =>
  (pyDictGet inputData "env" (Json.obj .nil)).bind fun env =>
  (pyDictGet query "permission" Json.null).bind fun permission =>
  (pyGetOperator env userVar).bind fun operator =>
  if pyTruthy permission then
    (permsFor operator).bind fun userPerms =>
      Except.ok (successResult operator permission
        (pyInStrList permission userPerms))
  else
    Except.ok missingPermResult

/-- `main` (lines 30-60) as a function of the parse result of standard
input and the `USER` environment variable.  A parse failure is the
`json.JSONDecodeError` branch; any exception thrown after a successful
parse is the generic `except Exception` branch. -/
def run (stdinParse : Except String Json) (userVar : Option String) :
    RunResult :=
  match stdinParse with
  | .error e =>
    { stdout := none, stderr := some ("Invalid JSON input: " ++ e ++ "\n"),
      exitCode := 1 }
  | .ok inputData =>
    match step inputData userVar with
    | .ok r => r
    | .error e =>
      { stdout := none, stderr := some ("Error: " ++ e ++ "\n"),
        exitCode := 1 }

/-- Line 33, given that the input parsed to a dict:
`query = input_data.get("query", {})`. -/
def queryOf (f : JsonFields) : Json := (f.lookup "query").getD (Json.obj .nil)

/-- Line 34, given that the input parsed to a dict:
`env = input_data.get("env", {})`. -/
def envOf (f : JsonFields) : Json := (f.lookup "env").getD (Json.obj .nil)

/-- Whether a parsed JSON value is a dict. -/
def isObj : Json → Bool
  | .obj _ => true
  | _ => false

/-- The request document with operator `o` and requested permission `p`
used in the specification's example scenarios. -/
def mkRequest (o p : String) : JsonFields :=
  .cons "query" (Json.obj (.cons "permission" (Json.str p) .nil))
    (.cons "env" (Json.obj (.cons "operator" (Json.str o) .nil)) .nil)

/-- Concrete input for C2: the query carries a present, non-empty
permission, but the env field is the number 5 rather than a mapping. -/
def cex2Fields : JsonFields :=
  .cons "query" (Json.obj (.cons "permission" (Json.str "prod-db-write") .nil))
    (.cons "env" (Json.num 5) .nil)

/-- Concrete input for C3: query is an empty mapping (no permission), and
the env field is the number 5 rather than a mapping. -/
def cex3Fields : JsonFields :=
  .cons "query" (Json.obj .nil) (.cons "env" (Json.num 5) .nil)

/-- Concrete input for C9: query.permission is present but the empty
string, and the env field is the number 7 rather than a mapping. -/
def cex9Fields : JsonFields :=
  .cons "query" (Json.obj (.cons "permission" (Json.str "") .nil))
    (.cons "env" (Json.num 7) .nil)

/-- Concrete well-shaped request used as the C2 witness input. -/
def w2Fields : JsonFields :=
  .cons "query" (Json.obj (.cons "permission" (Json.str "prod-db-write") .nil))
    (.cons "env" (Json.obj (.cons "operator" (Json.str "alice") .nil)) .nil)

example :
    run (Except.ok (Json.obj w2Fields)) none =
    { stdout := some ("\x7b\"columns\": [\"operator\", \"permission\", \"allowed\"], \"rows\": [\x7b\"operator\": \"alice\", \"permission\": \"prod-db-write\", \"allowed\": true\x7d]\x7d" ++ "\n"),
      stderr := none, exitCode := 0 } := rfl

example :
    run (Except.ok (Json.obj (.cons "query" (Json.obj .nil) .nil)))
        (some "alice") = missingPermResult := rfl

example :
    run (Except.ok (Json.num 5)) none =
    { stdout := none,
      stderr := some "Error: 'int' object has no attribute 'get'\n",
      exitCode := 1 } := rfl

lemma pyDictGet_obj (f : JsonFields) (key : String) (dflt : Json) :
    pyDictGet (Json.obj f) key dflt = Except.ok ((f.lookup key).getD dflt) :=
  rfl

lemma permsFor_hashable (op : Json) (h : isHashable op = true) :
    permsFor op = Except.ok (hashPerms op) := by
  cases op <;> first | rfl | simp [isHashable] at h

lemma step_obj (f : JsonFields) (u : Option String) :
    step (Json.obj f) u =
      (pyDictGet (queryOf f) "permission" Json.null).bind fun permission =>
      (pyGetOperator (envOf f) u).bind fun operator =>
      if pyTruthy permission then
        (permsFor operator).bind fun userPerms =>
          Except.ok (successResult operator permission
            (pyInStrList permission userPerms))
      else
        Except.ok missingPermResult :=
  rfl

/-- On an input object whose query mapping holds a non-empty string
permission, whose env resolves to a mapping, and whose resolved operator
value is hashable, the run succeeds with the serialized response. -/
lemma run_success_core (f qf ef : JsonFields) (u : Option String) (s : String)
    (hq : queryOf f = Json.obj qf)
    (hp : qf.lookup "permission" = some (Json.str s))
    (hs : s ≠ "")
    (he : envOf f = Json.obj ef)
    (hop : isHashable (resolveOperator ef u) = true) :
    run (Except.ok (Json.obj f)) u =
      successResult (resolveOperator ef u) (Json.str s)
        (pyInStrList (Json.str s) (hashPerms (resolveOperator ef u))) := by
  simp [run, step_obj, hq, he, hp, pyDictGet_obj, pyGetOperator, Except.bind,
    pyTruthy, hs, permsFor_hashable _ hop]

/-- On an input object whose query resolves to a mapping with a falsy
permission entry and whose env resolves to a mapping, the run takes the
validation-failure branch. -/
lemma run_missing_core (f qf ef : JsonFields) (u : Option String)
    (hq : queryOf f = Json.obj qf)
    (hp : pyTruthy ((qf.lookup "permission").getD Json.null) = false)
    (he : envOf f = Json.obj ef) :
    run (Except.ok (Json.obj f)) u = missingPermResult := by
  simp [run, step_obj, hq, he, pyDictGet_obj, pyGetOperator, Except.bind, hp]

lemma step_ok_cases (j : Json) (u : Option String) (r : RunResult)
    (h : step j u = Except.ok r) :
    (∃ op perm a, r = successResult op perm a) ∨ r = missingPermResult := by
  cases h1 : pyDictGet j "query" (Json.obj .nil) with
  | error e => simp [step, h1, Except.bind] at h
  | ok query =>
  cases h2 : pyDictGet j "env" (Json.obj .nil) with
  | error e => simp [step, h1, h2, Except.bind] at h
  | ok env =>
  cases h3 : pyDictGet query "permission" Json.null with
  | error e => simp [step, h1, h2, h3, Except.bind] at h
  | ok permission =>
  cases h4 : pyGetOperator env u with
  | error e => simp [step, h1, h2, h3, h4, Except.bind] at h
  | ok operator =>
  cases ht : pyTruthy permission with
  | false =>
    right
    simp [step, h1, h2, h3, h4, ht, Except.bind] at h
    exact h.symm
  | true =>
    cases h5 : permsFor operator with
    | error e => simp [step, h1, h2, h3, h4, h5, ht, Except.bind] at h
    | ok perms =>
      left
      refine ⟨operator, permission, pyInStrList permission perms, ?_⟩
      simp [step, h1, h2, h3, h4, h5, ht, Except.bind] at h
      exact h.symm

/-- C1: the resolution step computes allowed as membership of the
requested permission in the permission list stored for the operator,
taking the empty list when the operator is absent from the store. -/
theorem resolve_is_membership (o p : String)
    (store : List (String × List String)) :
    resolve o p store = true ↔ p ∈ (store.lookup o).getD [] := by
  simp [resolve]

/-- C2 (amended): on an input object whose query mapping holds a present,
non-empty string permission, provided env is absent or a mapping and the
resolved operator value is hashable, the process writes exactly one
response document of the modelled column and key order to standard output
and exits 0. -/
theorem run_success_format (f qf ef : JsonFields) (u : Option String)
    (s : String)
    (hq : queryOf f = Json.obj qf)
    (hp : qf.lookup "permission" = some (Json.str s))
    (hs : s ≠ "")
    (he : envOf f = Json.obj ef)
    (hop : isHashable (resolveOperator ef u) = true) :
    run (Except.ok (Json.obj f)) u =
      successResult (resolveOperator ef u) (Json.str s)
        (pyInStrList (Json.str s) (hashPerms (resolveOperator ef u))) :=
  run_success_core f qf ef u s hq hp hs he hop

theorem run_success_format_witness :
    run (Except.ok (Json.obj w2Fields)) none =
      successResult (Json.str "alice") (Json.str "prod-db-write") true :=
  run_success_format w2Fields
    (.cons "permission" (Json.str "prod-db-write") .nil)
    (.cons "operator" (Json.str "alice") .nil) none "prod-db-write"
    rfl rfl (by decide) rfl rfl

/-- C2 counterexample: this input parses as an object and its
query.permission is present and non-empty, yet the process writes no
standard-output document and exits 1, because the env field is not a
mapping and the generic exception handler fires. -/
theorem run_success_format_cex :
    queryOf cex2Fields =
      Json.obj (.cons "permission" (Json.str "prod-db-write") .nil)
    ∧ JsonFields.lookup (.cons "permission" (Json.str "prod-db-write") .nil)
        "permission" = some (Json.str "prod-db-write")
    ∧ ("prod-db-write" : String) ≠ ""
    ∧ run (Except.ok (Json.obj cex2Fields)) (some "alice") =
      { stdout := none,
        stderr := some "Error: 'int' object has no attribute 'get'\n",
        exitCode := 1 } :=
  ⟨rfl, rfl, by decide, rfl⟩

/-- C3 (amended): on an input object whose query resolves to a mapping
lacking a permission entry, provided env is absent or a mapping, the
process writes the fixed validation diagnostic to the error stream, exits
1, and writes no standard-output document. -/
theorem missing_perm_fixed_diag (f qf ef : JsonFields) (u : Option String)
    (hq : queryOf f = Json.obj qf)
    (hp : qf.lookup "permission" = none)
    (he : envOf f = Json.obj ef) :
    run (Except.ok (Json.obj f)) u = missingPermResult :=
  run_missing_core f qf ef u hq (by simp [hp, pyTruthy]) he

theorem missing_perm_fixed_diag_witness :
    run (Except.ok (Json.obj (.cons "query" (Json.obj .nil) .nil)))
      (some "alice") = missingPermResult :=
  missing_perm_fixed_diag (.cons "query" (Json.obj .nil) .nil) .nil .nil
    (some "alice") rfl rfl rfl

/-- C3 counterexample: this input parses as an object and its query
mapping lacks a permission entry, yet the diagnostic is the generic
exception report, not the fixed validation message, because the env field
is not a mapping and line 37 raises before the permission check runs. -/
theorem missing_perm_fixed_diag_cex :
    queryOf cex3Fields = Json.obj .nil
    ∧ JsonFields.lookup .nil "permission" = none
    ∧ run (Except.ok (Json.obj cex3Fields)) (some "alice") =
      { stdout := none,
        stderr := some "Error: 'int' object has no attribute 'get'\n",
        exitCode := 1 }
    ∧ ("Error: 'int' object has no attribute 'get'\n" : String) ≠
        "Missing 'permission' in query\n" :=
  ⟨rfl, rfl, rfl, by decide⟩

/-- C4: on every parse failure the process writes the one-line
parser-detail diagnostic to the error stream, exits 1, and writes no
standard-output document. -/
theorem parse_failure_outcome (e : String) (u : Option String) :
    run (Except.error e) u =
      { stdout := none,
        stderr := some ("Invalid JSON input: " ++ e ++ "\n"),
        exitCode := 1 } :=
  rfl

/-- C5: operator identity follows the ordered fallback chain of line 37: a
present env.operator entry is always used as stored, otherwise the USER
variable, otherwise the literal string unknown; and this is exactly the
resolution the pipeline performs on a mapping env. -/
theorem operator_fallback (ef : JsonFields) (u : Option String) :
    (∀ v, ef.lookup "operator" = some v → resolveOperator ef u = v)
    ∧ (ef.lookup "operator" = none →
        ∀ usr, u = some usr → resolveOperator ef u = Json.str usr)
    ∧ (ef.lookup "operator" = none → u = none →
        resolveOperator ef u = Json.str "unknown")
    ∧ pyGetOperator (Json.obj ef) u = Except.ok (resolveOperator ef u) := by
  refine ⟨?_, ?_, ?_, rfl⟩ <;> intros <;> simp_all [resolveOperator]

theorem operator_fallback_witness :
    resolveOperator (.cons "operator" (Json.str "alice") .nil) (some "bob") =
      Json.str "alice"
    ∧ resolveOperator .nil (some "bob") = Json.str "bob"
    ∧ resolveOperator .nil none = Json.str "unknown" :=
  ⟨(operator_fallback (.cons "operator" (Json.str "alice") .nil)
      (some "bob")).1 _ rfl,
   (operator_fallback .nil (some "bob")).2.1 rfl "bob" rfl,
   (operator_fallback .nil none).2.2.1 rfl rfl⟩

/-- C6: an operator absent from a store resolves to allowed false for
every permission, and a request for an operator absent from PERMISSIONS
still yields a normal success response with allowed false, exit 0 and no
error. -/
theorem unknown_operator_denied (o p : String)
    (store : List (String × List String))
    (h1 : store.lookup o = none)
    (h2 : PERMISSIONS.lookup o = none)
    (hp : p ≠ "") :
    resolve o p store = false
    ∧ run (Except.ok (Json.obj (mkRequest o p))) none =
        successResult (Json.str o) (Json.str p) false := by
  constructor
  · simp [resolve, h1]
  · have h := run_success_core (mkRequest o p)
      (.cons "permission" (Json.str p) .nil)
      (.cons "operator" (Json.str o) .nil) none p rfl rfl hp rfl rfl
    simpa [resolveOperator, JsonFields.lookup, hashPerms, h2, pyInStrList]
      using h

theorem unknown_operator_denied_witness :
    resolve "dave" "prod-db-read" PERMISSIONS = false
    ∧ run (Except.ok (Json.obj (mkRequest "dave" "prod-db-read"))) none =
        successResult (Json.str "dave") (Json.str "prod-db-read") false :=
  unknown_operator_denied "dave" "prod-db-read" PERMISSIONS
    (by decide) (by decide) (by decide)

/-- C7: every run either exits 0 having written exactly the serialized
response document, or exits 1 with no standard-output document and an
error-stream line that is the fixed validation message, the parse
diagnostic, or the generic exception report. -/
theorem error_paths_and_success (i : Except String Json)
    (u : Option String) :
    ((run i u).exitCode = 0 →
      ∃ op perm a, run i u = successResult op perm a)
    ∧ ((run i u).exitCode ≠ 0 →
      (run i u).exitCode = 1 ∧ (run i u).stdout = none ∧
      ∃ d, (run i u).stderr = some d ∧
        (d = "Missing 'permission' in query\n"
         ∨ (∃ e, d = "Invalid JSON input: " ++ e ++ "\n")
         ∨ (∃ e, d = "Error: " ++ e ++ "\n"))) := by
  cases i with
  | error e =>
    constructor
    · intro h0; simp [run] at h0
    · intro _
      exact ⟨rfl, rfl, "Invalid JSON input: " ++ e ++ "\n", rfl,
        Or.inr (Or.inl ⟨e, rfl⟩)⟩
  | ok j =>
    cases hs : step j u with
    | error e =>
      constructor
      · intro h0; simp [run, hs] at h0
      · intro _
        refine ⟨by simp [run, hs], by simp [run, hs],
          "Error: " ++ e ++ "\n", by simp [run, hs],
          Or.inr (Or.inr ⟨e, rfl⟩)⟩
    | ok r =>
      rcases step_ok_cases j u r hs with ⟨op, perm, a, hr⟩ | hr
      · constructor
        · intro _; exact ⟨op, perm, a, by simp [run, hs, hr]⟩
        · intro hne
          exact absurd (by simp [run, hs, hr, successResult]) hne
      · constructor
        · intro h0
          simp [run, hs, hr, missingPermResult] at h0
        · intro _
          refine ⟨by simp [run, hs, hr, missingPermResult],
            by simp [run, hs, hr, missingPermResult],
            "Missing 'permission' in query\n",
            by simp [run, hs, hr, missingPermResult], Or.inl rfl⟩

theorem error_paths_and_success_witness :
    (run (Except.error "boom") none).exitCode = 1
    ∧ (run (Except.error "boom") none).stdout = none
    ∧ ∃ d, (run (Except.error "boom") none).stderr = some d ∧
        (d = "Missing 'permission' in query\n"
         ∨ (∃ e, d = "Invalid JSON input: " ++ e ++ "\n")
         ∨ (∃ e, d = "Error: " ++ e ++ "\n")) :=
  (error_paths_and_success (Except.error "boom") none).2 (by decide)

/-- C8: the process is deterministic: invocations whose standard input
parses identically and whose USER variable agrees produce identical
outcomes, standard-output bytes included; the model is a pure function of
these two inputs, and json.load is itself a function of the input bytes. -/
theorem deterministic (i j : Except String Json) (u v : Option String)
    (hi : i = j) (hu : u = v) : run i u = run j v := by
  rw [hi, hu]

theorem deterministic_witness :
    run (Except.ok (Json.obj (mkRequest "alice" "deploy-staging")))
      (some "alice") =
    run (Except.ok (Json.obj (mkRequest "alice" "deploy-staging")))
      (some "alice") :=
  deterministic _ _ _ _ rfl rfl

/-- C9 (amended): a present but empty-string query.permission takes the
same validation-failure branch as a missing one: provided env is absent or
a mapping, the fixed diagnostic is written, the exit code is 1, and no
standard-output document is written. -/
theorem empty_permission_missing (f qf ef : JsonFields) (u : Option String)
    (hq : queryOf f = Json.obj qf)
    (hp : qf.lookup "permission" = some (Json.str ""))
    (he : envOf f = Json.obj ef) :
    run (Except.ok (Json.obj f)) u = missingPermResult :=
  run_missing_core f qf ef u hq (by simp [hp, pyTruthy]) he

theorem empty_permission_missing_witness :
    run (Except.ok (Json.obj (.cons "query"
      (Json.obj (.cons "permission" (Json.str "") .nil)) .nil))) none =
      missingPermResult :=
  empty_permission_missing
    (.cons "query" (Json.obj (.cons "permission" (Json.str "") .nil)) .nil)
    (.cons "permission" (Json.str "") .nil) .nil none rfl rfl rfl

/-- C9 counterexample: with an empty-string permission and a non-mapping
env field, the process exits 1 via the generic exception report, not the
fixed validation diagnostic, because line 37 raises before the permission
check runs. -/
theorem empty_permission_missing_cex :
    queryOf cex9Fields = Json.obj (.cons "permission" (Json.str "") .nil)
    ∧ JsonFields.lookup (.cons "permission" (Json.str "") .nil)
        "permission" = some (Json.str "")
    ∧ run (Except.ok (Json.obj cex9Fields)) (some "alice") =
      { stdout := none,
        stderr := some "Error: 'int' object has no attribute 'get'\n",
        exitCode := 1 }
    ∧ ("Error: 'int' object has no attribute 'get'\n" : String) ≠
        "Missing 'permission' in query\n" :=
  ⟨rfl, rfl, rfl, by decide⟩

/-- C10: on every well-formed input that is not an object, the run exits 1
with no standard-output document and a generic exception report naming the
value's type, and that report is never of the parse-diagnostic form. -/
theorem non_object_input (j : Json) (u : Option String)
    (h : isObj j = false) :
    run (Except.ok j) u =
      { stdout := none, stderr := some ("Error: " ++ noGetMsg j ++ "\n"),
        exitCode := 1 }
    ∧ ∀ d, ("Error: " ++ noGetMsg j ++ "\n") ≠
        ("Invalid JSON input: " ++ d) := by
  cases j with
  | obj f => simp [isObj] at h
  | null =>
    refine ⟨rfl, fun d hc => ?_⟩
    have h2 := congrArg String.data hc
    simp [String.data_append, noGetMsg, pyTypeName] at h2
  | bool b =>
    refine ⟨rfl, fun d hc => ?_⟩
    have h2 := congrArg String.data hc
    simp [String.data_append, noGetMsg, pyTypeName] at h2
  | num n =>
    refine ⟨rfl, fun d hc => ?_⟩
    have h2 := congrArg String.data hc
    simp [String.data_append, noGetMsg, pyTypeName] at h2
  | str s =>
    refine ⟨rfl, fun d hc => ?_⟩
    have h2 := congrArg String.data hc
    simp [String.data_append, noGetMsg, pyTypeName] at h2
  | arr l =>
    refine ⟨rfl, fun d hc => ?_⟩
    have h2 := congrArg String.data hc
    simp [String.data_append, noGetMsg, pyTypeName] at h2

theorem non_object_input_witness :
    run (Except.ok (Json.num 5)) none =
      { stdout := none,
        stderr := some ("Error: " ++ noGetMsg (Json.num 5) ++ "\n"),
        exitCode := 1 }
    ∧ ∀ d, ("Error: " ++ noGetMsg (Json.num 5) ++ "\n") ≠
        ("Invalid JSON input: " ++ d) :=
  non_object_input (Json.num 5) none rfl

end CheckPermission
